import Mathlib

/-! # worker/runc: `NewWorkerOpt`

A shallow embedding of `vendor/github.com/moby/buildkit/worker/runc/runc.go`.

`NewWorkerOpt` is sequential wiring code.  Every collaborator it calls
(`os`, `path/filepath`, `bolt`, containerd, the other buildkit packages) lives
outside the file, so the collaborators are a parameter `Env` of the embedding:
a fallible collaborator returns either a handle or an error code, and the
embedding records each fallible call in a trace, in program order.  Values the
function builds out of those handles (`ctdmetadata.NewDB`, the `gc` closure,
the two `containerdsnapshot` wrappers, the applier and the differ) are kept as
constructor terms, so that a theorem can say which arguments a constructor
received.
-/

namespace Runc

/-! ## Values -/

/-- Error code of an error value produced by a collaborator. -/
abbrev ExtError := Nat

/-- Go `error` values that `NewWorkerOpt` can return.  `errors.Errorf` allocates
a fresh error at the call site, so it is a constructor of its own and is never
equal to an error handed back by a collaborator. -/
inductive GoError where
  /-- `errors.Errorf(format, args...)` -/
  | errorf (format : String) (args : List String)
  /-- an error returned by a collaborator -/
  | external (code : ExtError)
  deriving DecidableEq, Repr

/-- Handle of a `*metadata.Store` (result of `metadata.NewStore`). -/
structure MetadataStore where
  h : Nat
  deriving DecidableEq, Repr

/-- Handle of an `executor.Executor` (result of `runcexecutor.New`). -/
structure Executor where
  h : Nat
  deriving DecidableEq, Repr

/-- Handle of a `ctdsnapshot.Snapshotter` returned by `naive.NewSnapshotter` or
`overlay.NewSnapshotter`. -/
structure BackendSnapshotter where
  h : Nat
  deriving DecidableEq, Repr

/-- Handle of a `*bolt.DB` (result of `bolt.Open`). -/
structure BoltDB where
  h : Nat
  deriving DecidableEq, Repr

/-- Handle of the store returned by `local.NewStore`. -/
structure LocalStore where
  h : Nat
  deriving DecidableEq, Repr

/-- A `context.Context`. -/
structure Context where
  h : Nat
  deriving DecidableEq, Repr

/-- Handle of a `*session.Manager`; `NewWorkerOpt` never builds one. -/
structure SessionManager where
  h : Nat
  deriving DecidableEq, Repr

/-- Handle of an `images.Store`; `NewWorkerOpt` never builds one. -/
structure ImageStore where
  h : Nat
  deriving DecidableEq, Repr

mutual
/-- Values of the interface `content.Store` held by the variable `c`. -/
inductive ContentStore where
  /-- result of `local.NewStore` -/
  | localStore (s : LocalStore)
  /-- `mdb.ContentStore()` -/
  | ofDB (mdb : MetaDB)
  /-- `containerdsnapshot.NewContentStore(inner, ns, gc)` -/
  | gcAware (inner : ContentStore) (ns : String) (gc : GCFunc)
/-- Values of `*ctdmetadata.DB`. -/
inductive MetaDB where
  /-- `ctdmetadata.NewDB(db, c, ss)`; `ss` is the Go map literal, as its entries -/
  | newDB (db : BoltDB) (c : ContentStore) (ss : List (String × BackendSnapshotter))
/-- The closure `gc`; its only captured variable is `mdb`. -/
inductive GCFunc where
  | closure (mdb : MetaDB)
end

/-- The `bolt` database a `*ctdmetadata.DB` was built on. -/
def MetaDB.db : MetaDB → BoltDB
  | .newDB db _ _ => db

/-- The content store a `*ctdmetadata.DB` was built on. -/
def MetaDB.cs : MetaDB → ContentStore
  | .newDB _ c _ => c

/-- The snapshotter map a `*ctdmetadata.DB` was built with. -/
def MetaDB.ss : MetaDB → List (String × BackendSnapshotter)
  | .newDB _ _ ss => ss

/-- The variable captured by the closure `gc`. -/
def GCFunc.mdb : GCFunc → MetaDB
  | .closure mdb => mdb

/-- The value `mdb.Snapshotter(name)`, kept as the receiver and the key. -/
structure DBSnapshotter where
  mdb : MetaDB
  name : String

/-- The value `containerdsnapshot.NewSnapshotter(inner, c, md, ns, gc)`. -/
structure Snapshotter where
  inner : DBSnapshotter
  c : ContentStore
  md : MetadataStore
  ns : String
  gc : GCFunc

/-- The value `apply.NewFileSystemApplier(c)`. -/
structure Applier where
  c : ContentStore

/-- The value `walking.NewWalkingDiff(c)`. -/
structure Differ where
  c : ContentStore

/-- A non-nil Go `map[string]string`: entries with pairwise distinct keys. -/
abbrev Labels := AList (fun _ : String => String)

/-- The struct `base.WorkerOpt`, with the fields the file names: the nine of the
composite literal and `SessionManager` of the doc comment.  A pointer, interface
or map field is `none` when it holds `nil`. -/
structure WorkerOpt where
  ID : String
  Labels : Option Labels
  SessionManager : Option SessionManager
  MetadataStore : Option MetadataStore
  Executor : Option Executor
  Snapshotter : Option Snapshotter
  ContentStore : Option ContentStore
  Applier : Option Applier
  Differ : Option Differ
  ImageStore : Option ImageStore

/-- The zero value of `base.WorkerOpt`, as declared by `var opt base.WorkerOpt`. -/
def WorkerOpt.zero : WorkerOpt :=
  { ID := "", Labels := none, SessionManager := none, MetadataStore := none,
    Executor := none, Snapshotter := none, ContentStore := none, Applier := none,
    Differ := none, ImageStore := none }

/-! ## Collaborators -/

/-- The collaborators of `NewWorkerOpt`.  A fallible one returns an error code
or a handle; within one call of `NewWorkerOpt` each fallible one is invoked at
most once, so a function of the arguments describes any behaviour of the
outside world. -/
structure Env where
  /-- `filepath.Join(a, b)` -/
  filepathJoin : String → String → String
  /-- `os.MkdirAll(path, perm)`; `none` is a nil error -/
  mkdirAll : String → Nat → Option ExtError
  /-- `metadata.NewStore(dbPath)` -/
  metadataNewStore : String → Except ExtError MetadataStore
  /-- `runcexecutor.New(root)` -/
  runcexecutorNew : String → Except ExtError Executor
  /-- `naive.NewSnapshotter(root)` -/
  naiveNewSnapshotter : String → Except ExtError BackendSnapshotter
  /-- `overlay.NewSnapshotter(root)` -/
  overlayNewSnapshotter : String → Except ExtError BackendSnapshotter
  /-- `local.NewStore(root)` -/
  localNewStore : String → Except ExtError LocalStore
  /-- `bolt.Open(path, mode, nil)` -/
  boltOpen : String → Nat → Except ExtError BoltDB
  /-- `mdb.Init(context.TODO())`; `none` is a nil error -/
  mdbInit : MetaDB → Option ExtError
  /-- `base.ID(root)` -/
  baseID : String → Except ExtError String
  /-- `base.Labels(executor, snapshotter)`; the result is assigned into, so it
  is a non-nil map -/
  baseLabels : String → String → Labels

/-- A fallible collaborator call, with its arguments. -/
inductive Call where
  | mkdirAll (path : String) (perm : Nat)
  | metadataNewStore (dbPath : String)
  | runcexecutorNew (root : String)
  | naiveNewSnapshotter (root : String)
  | overlayNewSnapshotter (root : String)
  | localNewStore (root : String)
  | boltOpen (path : String) (mode : Nat)
  | mdbInit (mdb : MetaDB)
  | baseID (root : String)

/-- The function value held by the variable `snapshotterNew`. -/
inductive SnapshotterNew where
  /-- `naive.NewSnapshotter` -/
  | naive
  /-- `overlay.NewSnapshotter` -/
  | overlay
  deriving DecidableEq, Repr

/-- Calling the function held by `snapshotterNew`. -/
def SnapshotterNew.apply (env : Env) : SnapshotterNew → String → Except ExtError BackendSnapshotter
  | .naive, root => env.naiveNewSnapshotter root
  | .overlay, root => env.overlayNewSnapshotter root

/-- The trace entry of calling the function held by `snapshotterNew`. -/
def SnapshotterNew.call : SnapshotterNew → String → Call
  | .naive, root => Call.naiveNewSnapshotter root
  | .overlay, root => Call.overlayNewSnapshotter root

/-- The `switch snapshotterName` of `NewWorkerOpt`: the function assigned to
`snapshotterNew`, or `none` in the `default` case. -/
def snapshotterSwitch (snapshotterName : String) : Option SnapshotterNew :=
  if snapshotterName = "naive" then some SnapshotterNew.naive
  else if snapshotterName = "overlayfs" then some SnapshotterNew.overlay
  else none

/-- The loop `for k, v := range labels { xlabels[k] = v }`.  A nil map ranges
over nothing; the keys of a map are distinct, so the order of the iteration
does not change the result. -/
def mergeLabels (xlabels : Labels) : Option Labels → Labels
  | none => xlabels
  | some labels => labels.entries.foldl (fun acc e => acc.insert e.1 e.2) xlabels

/-- What one call of `NewWorkerOpt` did and returned. -/
structure Result where
  /-- the fallible collaborator calls, in program order -/
  trace : List Call
  /-- the returned `base.WorkerOpt` -/
  opt : WorkerOpt
  /-- the returned `error`; `none` is nil -/
  err : Option GoError

/-- The function `NewWorkerOpt(root, labels, snapshotterName)`. -/
def NewWorkerOpt (env : Env) (root : String) (labels : Option Labels)
    (snapshotterName : String) : Result :=
  let opt : WorkerOpt := WorkerOpt.zero
  match snapshotterSwitch snapshotterName with
  | none => ⟨[], opt, some (GoError.errorf "unknown snapshotter name: %q" [snapshotterName])⟩
  | some snapshotterNew =>
  let name := "runc-" ++ snapshotterName
  let root := env.filepathJoin root name
  let t1 := [Call.mkdirAll root 0o700]
  match env.mkdirAll root 0o700 with
  | some e => ⟨t1, opt, some (GoError.external e)⟩
  | none =>
  let t2 := t1 ++ [Call.metadataNewStore (env.filepathJoin root "metadata.db")]
  match env.metadataNewStore (env.filepathJoin root "metadata.db") with
  | .error e => ⟨t2, opt, some (GoError.external e)⟩
  | .ok md =>
  let t3 := t2 ++ [Call.runcexecutorNew (env.filepathJoin root "executor")]
  match env.runcexecutorNew (env.filepathJoin root "executor") with
  | .error e => ⟨t3, opt, some (GoError.external e)⟩
  | .ok exe =>
  let t4 := t3 ++ [snapshotterNew.call (env.filepathJoin root "snapshots")]
  match snapshotterNew.apply env (env.filepathJoin root "snapshots") with
  | .error e => ⟨t4, opt, some (GoError.external e)⟩
  | .ok s =>
  let t5 := t4 ++ [Call.localNewStore (env.filepathJoin root "content")]
  match env.localNewStore (env.filepathJoin root "content") with
  | .error e => ⟨t5, opt, some (GoError.external e)⟩
  | .ok c0 =>
  let c : ContentStore := ContentStore.localStore c0
  let t6 := t5 ++ [Call.boltOpen (env.filepathJoin root "containerdmeta.db") 0o644]
  match env.boltOpen (env.filepathJoin root "containerdmeta.db") 0o644 with
  | .error e => ⟨t6, opt, some (GoError.external e)⟩
  | .ok db =>
  let mdb := MetaDB.newDB db c [(snapshotterName, s)]
  let t7 := t6 ++ [Call.mdbInit mdb]
  match env.mdbInit mdb with
  | some e => ⟨t7, opt, some (GoError.external e)⟩
  | none =>
  let gc := GCFunc.closure mdb
  let c : ContentStore := ContentStore.gcAware (ContentStore.ofDB mdb) "buildkit" gc
  let t8 := t7 ++ [Call.baseID root]
  match env.baseID root with
  | .error e => ⟨t8, opt, some (GoError.external e)⟩
  | .ok id =>
  let xlabels := mergeLabels (env.baseLabels "oci" snapshotterName) labels
  let opt : WorkerOpt :=
    { ID := id
      Labels := some xlabels
      SessionManager := none
      MetadataStore := some md
      Executor := some exe
      Snapshotter := some ⟨⟨mdb, snapshotterName⟩, c, md, "buildkit", gc⟩
      ContentStore := some c
      Applier := some ⟨c⟩
      Differ := some ⟨c⟩
      ImageStore := none }
  ⟨t8, opt, none⟩

/-- The closure `gc`: `_, err := mdb.GarbageCollect(ctx); return err`.  The
method `GarbageCollect` is a parameter; it acts on a world `W` and returns its
statistics and its error.  The result is the error returned and the world after
the call, with the list of `GarbageCollect` invocations made. -/
def GCFunc.run {W S : Type} (GarbageCollect : MetaDB → Context → W → (S × Option ExtError) × W)
    (gc : GCFunc) (ctx : Context) (w : W) : List (MetaDB × Context) × Option GoError × W :=
  match gc with
  | .closure mdb =>
    match GarbageCollect mdb ctx w with
    | ((_, err), w1) => ([(mdb, ctx)], err.map GoError.external, w1)

/-! ## The fallible steps -/

/-- The eight fallible steps of `NewWorkerOpt`. -/
inductive Step where
  | mkdirAll
  | metadataNewStore
  | runcexecutorNew
  | snapshotterNew
  | localNewStore
  | boltOpen
  | mdbInit
  | baseID
  deriving DecidableEq, Repr

/-- The step a collaborator call belongs to. -/
def Call.step : Call → Step
  | .mkdirAll _ _ => Step.mkdirAll
  | .metadataNewStore _ => Step.metadataNewStore
  | .runcexecutorNew _ => Step.runcexecutorNew
  | .naiveNewSnapshotter _ => Step.snapshotterNew
  | .overlayNewSnapshotter _ => Step.snapshotterNew
  | .localNewStore _ => Step.localNewStore
  | .boltOpen _ _ => Step.boltOpen
  | .mdbInit _ => Step.mdbInit
  | .baseID _ => Step.baseID

/-- The program order of the fallible steps. -/
def Step.order : List Step :=
  [Step.mkdirAll, Step.metadataNewStore, Step.runcexecutorNew, Step.snapshotterNew,
   Step.localNewStore, Step.boltOpen, Step.mdbInit, Step.baseID]

/-- The error a collaborator call returns in `env`; `none` is a nil error. -/
def Env.outcome (env : Env) : Call → Option ExtError
  | .mkdirAll path perm => env.mkdirAll path perm
  | .metadataNewStore p => match env.metadataNewStore p with
    | .error e => some e
    | .ok _ => none
  | .runcexecutorNew p => match env.runcexecutorNew p with
    | .error e => some e
    | .ok _ => none
  | .naiveNewSnapshotter p => match env.naiveNewSnapshotter p with
    | .error e => some e
    | .ok _ => none
  | .overlayNewSnapshotter p => match env.overlayNewSnapshotter p with
    | .error e => some e
    | .ok _ => none
  | .localNewStore p => match env.localNewStore p with
    | .error e => some e
    | .ok _ => none
  | .boltOpen p m => match env.boltOpen p m with
    | .error e => some e
    | .ok _ => none
  | .mdbInit mdb => env.mdbInit mdb
  | .baseID p => match env.baseID p with
    | .error e => some e
    | .ok _ => none

/-- The collaborator calls that open a durable database file: `metadata.NewStore`
on `metadata.db` and `bolt.Open` on `containerdmeta.db`. -/
def Call.opensDatabase : Call → Bool
  | .metadataNewStore _ => true
  | .boltOpen _ _ => true
  | _ => false

/-! ## Garbage collection, from the specification

`mdb.GarbageCollect` is containerd code outside this file.  The definitions of
this section follow sections 3, 4.3 and 6 of the specification. -/

/-- Modelled from the spec: the two kinds of stored object of section 3, blob
and snapshot; `mdb.GarbageCollect` and its data model are missing. -/
inductive Kind where
  | blob
  | snapshot
  deriving DecidableEq, Repr

/-- Modelled from the spec: a pin `(kind, key)` of section 3, the reference to
a blob (by digest) or to a snapshot (by key). -/
abbrev Ref := Kind × String

/-- Modelled from the spec: the metadata store of sections 3 and 6, read by the
collector.  `snapshots` are the snapshot records `(key, parent)`, `blobs` the
stored digests, `leases` the live leases with their pin sets, `roots` the root
label set `(label, target)`. -/
structure GCStore where
  snapshots : List (String × Option String)
  blobs : List String
  leases : List (String × List Ref)
  roots : List (String × Ref)

/-- Modelled from the spec: the keys of all stored snapshots and blobs, as the
sweep of section 4.3 enumerates them. -/
def GCStore.objects (s : GCStore) : List Ref :=
  s.snapshots.map (fun e => (Kind.snapshot, e.1)) ++ s.blobs.map (fun d => (Kind.blob, d))

/-- Modelled from the spec: the starting points of the mark phase of section
4.3, "the union of root-label targets and all live lease pins". -/
def GCStore.pins (s : GCStore) : List Ref :=
  s.roots.map Prod.snd ++ s.leases.flatMap Prod.snd

/-- Modelled from the spec: a snapshot record whose key is marked and whose
parent is not yet marked, the next record the mark phase follows. -/
def pending (marked : List String) (e : String × Option String) : Bool :=
  match e.2 with
  | some p => decide (e.1 ∈ marked) && decide (p ∉ marked)
  | none => false

/-- A snapshot record whose parent is not marked; the number of such records
bounds the rounds the traversal still needs. -/
def unmarkedParent (marked : List String) (e : String × Option String) : Bool :=
  match e.2 with
  | some p => decide (p ∉ marked)
  | none => false

/-- Modelled from the spec: the traversal of the mark phase of section 4.3,
"each snapshot root marks its entire ancestor chain", as the explicit loop of
section 9: while some record has a marked key and an unmarked parent, mark that
parent.  Every round marks the parent of one more record, so as many rounds as
there are records are enough. -/
def markChains : Nat → List (String × Option String) → List String → List String
  | 0, _, marked => marked
  | n + 1, snaps, marked =>
    match snaps.find? (pending marked) with
    | some (_, some p) => markChains n snaps (p :: marked)
    | _ => marked

/-- Modelled from the spec: the mark phase of section 4.3: a blob pin marks
itself, a snapshot pin marks itself and its ancestor chain. -/
def GCStore.mark (s : GCStore) : List Ref :=
  s.pins.filter (fun r => r.1 = Kind.blob) ++
  (markChains s.snapshots.length s.snapshots
    ((s.pins.filter (fun r => r.1 = Kind.snapshot)).map Prod.snd)).map
      (fun k => (Kind.snapshot, k))

/-- Modelled from the spec: the sweep phase of section 4.3: "enumerate all
stored blobs and snapshots; any not marked is deleted"; the pins are not
touched. -/
def GCStore.sweep (s : GCStore) : GCStore :=
  { s with
    snapshots := s.snapshots.filter (fun e => decide ((Kind.snapshot, e.1) ∈ s.mark))
    blobs := s.blobs.filter (fun d => decide ((Kind.blob, d) ∈ s.mark)) }

/-- Modelled from the spec: what a pass reports, per object (section 4.3): the
objects whose keys it deleted. -/
structure GCStats where
  deleted : List Ref
  deriving DecidableEq, Repr

/-- Modelled from the spec: the durable metadata stores, one for each `bolt`
database (section 6, "one durable store per worker instance"). -/
abbrev World := BoltDB → GCStore

/-- Modelled from the spec: `mdb.GarbageCollect(ctx)`, one mark-and-sweep pass
of section 4.3 over the keys of the store kept in the database `mdb` was built
on; the stores of other databases are left alone.  The pass deletes the key of
every unmarked object and reports those objects.  The context carries
cancellation only, and reclaiming the backend storage behind a deleted key is
the backend's work; neither is part of the store of keys, so the pass returns a
nil error. -/
def GarbageCollect (mdb : MetaDB) (_ctx : Context) (w : World) :
    (GCStats × Option ExtError) × World :=
  ((⟨(w mdb.db).objects.filter (fun r => decide (r ∉ (w mdb.db).mark))⟩, none),
   Function.update w mdb.db (w mdb.db).sweep)

/-- Modelled from the spec: the closure of section 8, "the transitive closure of
root labels + active lease pins through the parent chain", among the stored
objects: a stored target of a root label, a stored pin of a live lease, and the
stored parent of a snapshot of the closure. -/
inductive Reach (s : GCStore) : Ref → Prop where
  | root {l : String} {r : Ref} : (l, r) ∈ s.roots → r ∈ s.objects → Reach s r
  | pin {id : String} {pins : List Ref} {r : Ref} :
      (id, pins) ∈ s.leases → r ∈ pins → r ∈ s.objects → Reach s r
  | parent {k p : String} :
      Reach s (Kind.snapshot, k) → (k, some p) ∈ s.snapshots →
      (Kind.snapshot, p) ∈ s.objects → Reach s (Kind.snapshot, p)

/-- A store with the chain `S2 → S1 → S0` listed parent first, a lone snapshot
`T`, two blobs, and a lease that pins `S2` and the blob `sha256:aa`. -/
def sampleStore : GCStore where
  snapshots := [("S0", none), ("S1", some "S0"), ("T", none), ("S2", some "S1")]
  blobs := ["sha256:aa", "sha256:bb"]
  leases := [("leaseX", [(Kind.snapshot, "S2"), (Kind.blob, "sha256:aa")])]
  roots := []

/-- A store whose only object is one blob, pinned by nothing. -/
def orphanStore : GCStore where
  snapshots := []
  blobs := ["sha256:dead"]
  leases := []
  roots := []

/-- A world in which the database with handle 6 holds `sampleStore` and every
other database holds `orphanStore`. -/
def sampleWorld : World :=
  fun db => if db.h = 6 then sampleStore else orphanStore

/-! ## Sample collaborators -/

/-- Collaborators that all succeed: paths are joined with a slash and the
default label map has one entry. -/
def okEnv : Env where
  filepathJoin := fun a b => a ++ "/" ++ b
  mkdirAll := fun _ _ => none
  metadataNewStore := fun _ => .ok ⟨1⟩
  runcexecutorNew := fun _ => .ok ⟨2⟩
  naiveNewSnapshotter := fun _ => .ok ⟨3⟩
  overlayNewSnapshotter := fun _ => .ok ⟨4⟩
  localNewStore := fun _ => .ok ⟨5⟩
  boltOpen := fun _ _ => .ok ⟨6⟩
  mdbInit := fun _ => none
  baseID := fun _ => .ok "worker-id"
  baseLabels := fun e _ => AList.singleton "executor" e

/-- A `GarbageCollect` on a world that counts the passes: it reports 7 deleted
objects and fails with code 5. -/
def failingGarbageCollect : MetaDB → Context → Nat → (Nat × Option ExtError) × Nat :=
  fun _ _ w => ((7, some 5), w + 1)

/-- Collaborators like `okEnv`, except that `os.MkdirAll` fails with code 13. -/
def mkdirFailsEnv : Env :=
  { okEnv with mkdirAll := fun _ _ => some 13 }

/-! ## Lemmas -/

theorem snapshotterSwitch_eq_none_iff (n : String) :
    snapshotterSwitch n = none ↔ n ≠ "naive" ∧ n ≠ "overlayfs" := by
  unfold snapshotterSwitch
  split
  · simp_all
  · split <;> simp_all

theorem outcome_snapshotterNew (env : Env) (f : SnapshotterNew) (p : String) :
    env.outcome (f.call p) = match f.apply env p with
      | .error e => some e
      | .ok _ => none := by
  cases f <;> rfl

theorem step_snapshotterNew (f : SnapshotterNew) (p : String) :
    (f.call p).step = Step.snapshotterNew := by
  cases f <;> rfl

/-- A call that returns a nil error performed all eight steps, each with
success, and returns the composite literal of the last statement. -/
theorem NewWorkerOpt_ok (env : Env) (root : String) (labels : Option Labels)
    (snapshotterName : String)
    (h : (NewWorkerOpt env root labels snapshotterName).err = none) :
    ∃ f md exe s c0 db id,
      snapshotterSwitch snapshotterName = some f ∧
      env.mkdirAll (env.filepathJoin root ("runc-" ++ snapshotterName)) 0o700 = none ∧
      env.metadataNewStore
        (env.filepathJoin (env.filepathJoin root ("runc-" ++ snapshotterName)) "metadata.db")
          = .ok md ∧
      env.runcexecutorNew
        (env.filepathJoin (env.filepathJoin root ("runc-" ++ snapshotterName)) "executor")
          = .ok exe ∧
      f.apply env
        (env.filepathJoin (env.filepathJoin root ("runc-" ++ snapshotterName)) "snapshots")
          = .ok s ∧
      env.localNewStore
        (env.filepathJoin (env.filepathJoin root ("runc-" ++ snapshotterName)) "content")
          = .ok c0 ∧
      env.boltOpen
        (env.filepathJoin (env.filepathJoin root ("runc-" ++ snapshotterName))
          "containerdmeta.db") 0o644 = .ok db ∧
      env.mdbInit (MetaDB.newDB db (ContentStore.localStore c0) [(snapshotterName, s)])
          = none ∧
      env.baseID (env.filepathJoin root ("runc-" ++ snapshotterName)) = .ok id ∧
      NewWorkerOpt env root labels snapshotterName =
        ⟨[Call.mkdirAll (env.filepathJoin root ("runc-" ++ snapshotterName)) 0o700,
          Call.metadataNewStore
            (env.filepathJoin (env.filepathJoin root ("runc-" ++ snapshotterName))
              "metadata.db"),
          Call.runcexecutorNew
            (env.filepathJoin (env.filepathJoin root ("runc-" ++ snapshotterName))
              "executor"),
          f.call
            (env.filepathJoin (env.filepathJoin root ("runc-" ++ snapshotterName))
              "snapshots"),
          Call.localNewStore
            (env.filepathJoin (env.filepathJoin root ("runc-" ++ snapshotterName))
              "content"),
          Call.boltOpen
            (env.filepathJoin (env.filepathJoin root ("runc-" ++ snapshotterName))
              "containerdmeta.db") 0o644,
          Call.mdbInit (MetaDB.newDB db (ContentStore.localStore c0) [(snapshotterName, s)]),
          Call.baseID (env.filepathJoin root ("runc-" ++ snapshotterName))],
         { ID := id
           Labels := some (mergeLabels (env.baseLabels "oci" snapshotterName) labels)
           SessionManager := none
           MetadataStore := some md
           Executor := some exe
           Snapshotter := some
             ⟨⟨MetaDB.newDB db (ContentStore.localStore c0) [(snapshotterName, s)],
                snapshotterName⟩,
              ContentStore.gcAware
                (ContentStore.ofDB
                  (MetaDB.newDB db (ContentStore.localStore c0) [(snapshotterName, s)]))
                "buildkit"
                (GCFunc.closure
                  (MetaDB.newDB db (ContentStore.localStore c0) [(snapshotterName, s)])),
              md, "buildkit",
              GCFunc.closure
                (MetaDB.newDB db (ContentStore.localStore c0) [(snapshotterName, s)])⟩
           ContentStore := some (ContentStore.gcAware
                (ContentStore.ofDB
                  (MetaDB.newDB db (ContentStore.localStore c0) [(snapshotterName, s)]))
                "buildkit"
                (GCFunc.closure
                  (MetaDB.newDB db (ContentStore.localStore c0) [(snapshotterName, s)])))
           Applier := some ⟨ContentStore.gcAware
                (ContentStore.ofDB
                  (MetaDB.newDB db (ContentStore.localStore c0) [(snapshotterName, s)]))
                "buildkit"
                (GCFunc.closure
                  (MetaDB.newDB db (ContentStore.localStore c0) [(snapshotterName, s)]))⟩
           Differ := some ⟨ContentStore.gcAware
                (ContentStore.ofDB
                  (MetaDB.newDB db (ContentStore.localStore c0) [(snapshotterName, s)]))
                "buildkit"
                (GCFunc.closure
                  (MetaDB.newDB db (ContentStore.localStore c0) [(snapshotterName, s)]))⟩
           ImageStore := none },
         none⟩ := by
  simp only [NewWorkerOpt] at h ⊢
  split at h
  · simp at h
  next f hf =>
  split at h
  · simp at h
  next h1 =>
  split at h
  · simp at h
  next md h2 =>
  split at h
  · simp at h
  next exe h3 =>
  split at h
  · simp at h
  next s h4 =>
  split at h
  · simp at h
  next c0 h5 =>
  split at h
  · simp at h
  next db h6 =>
  split at h
  · simp at h
  next h7 =>
  split at h
  · simp at h
  next id h8 =>
  refine ⟨f, md, exe, s, c0, db, id, hf, h1, h2, h3, h4, h5, h6, h7, h8, ?_⟩
  simp [hf, h1, h2, h3, h4, h5, h6, h7, h8]

/-- Assigning the entries of a map one by one: a key of the map gets the
map's value, any other key keeps the value it had. -/
theorem lookup_foldl_insert (l : List (Sigma fun _ : String => String)) (hl : l.NodupKeys)
    (acc : Labels) (k : String) :
    (l.foldl (fun acc e => acc.insert e.1 e.2) acc).lookup k =
      match l.dlookup k with
      | some v => some v
      | none => acc.lookup k := by
  induction l generalizing acc with
  | nil => simp
  | cons e t ih =>
    obtain ⟨ek, ev⟩ := e
    rw [List.nodupKeys_cons] at hl
    simp only [List.foldl_cons]
    rw [ih hl.2]
    by_cases hk : k = ek
    · subst hk
      have : List.dlookup k t = none := List.dlookup_eq_none.mpr hl.1
      simp [this]
    · have h1 : List.dlookup k (⟨ek, ev⟩ :: t) = List.dlookup k t :=
        List.dlookup_cons_ne t ⟨ek, ev⟩ hk
      rw [h1, AList.lookup_insert_ne hk]

theorem lookup_mergeLabels_some (D labels : Labels) (k : String) :
    (mergeLabels D (some labels)).lookup k =
      match labels.lookup k with
      | some v => some v
      | none => D.lookup k :=
  lookup_foldl_insert labels.entries labels.nodupKeys D k

/-- The steps performed are an initial segment of the program order, all but
the last succeeded, an error comes from the last one, and a nil error means all
eight succeeded. -/
theorem NewWorkerOpt_steps (env : Env) (root : String) (labels : Option Labels)
    (snapshotterName : String) :
    ((NewWorkerOpt env root labels snapshotterName).trace.map Call.step <+: Step.order) ∧
    (∀ c ∈ (NewWorkerOpt env root labels snapshotterName).trace.dropLast,
        env.outcome c = none) ∧
    (∀ e, (NewWorkerOpt env root labels snapshotterName).err = some e →
        (NewWorkerOpt env root labels snapshotterName).opt = WorkerOpt.zero ∧
        ((snapshotterSwitch snapshotterName = none ∧
            (NewWorkerOpt env root labels snapshotterName).trace = [] ∧
            e = GoError.errorf "unknown snapshotter name: %q" [snapshotterName]) ∨
         (snapshotterSwitch snapshotterName ≠ none ∧
            ∃ c code, (NewWorkerOpt env root labels snapshotterName).trace.getLast? = some c ∧
              env.outcome c = some code ∧ e = GoError.external code))) ∧
    ((NewWorkerOpt env root labels snapshotterName).err = none ↔
        (snapshotterSwitch snapshotterName ≠ none ∧
          (NewWorkerOpt env root labels snapshotterName).trace.map Call.step = Step.order ∧
          ∀ c ∈ (NewWorkerOpt env root labels snapshotterName).trace, env.outcome c = none)) := by
  simp only [NewWorkerOpt]
  split
  · next h => simp [h, Step.order]
  next f hf =>
  have hs : ∀ p, (f.call p).step = Step.snapshotterNew := step_snapshotterNew f
  have ho := outcome_snapshotterNew env f
  split
  · next e h =>
    simp [Step.order, hf, h]
    simp [Call.step, Env.outcome, h]
  next h1 =>
  split
  · next e h =>
    simp [Step.order, hf, h]
    simp [Call.step, Env.outcome, h, h1]
  next md h2 =>
  split
  · next e h =>
    simp [Step.order, hf, h]
    simp [Call.step, Env.outcome, h, h1, h2]
  next exe h3 =>
  split
  · next e h =>
    simp [Step.order, hf, hs, ho, h]
    simp [Call.step, Env.outcome, h, h1, h2, h3]
  next s h4 =>
  split
  · next e h =>
    simp [Step.order, hf, hs, ho, h, h4]
    simp [Call.step, Env.outcome, h, h1, h2, h3]
  next c0 h5 =>
  split
  · next e h =>
    simp [Step.order, hf, hs, ho, h, h4]
    simp [Call.step, Env.outcome, h, h1, h2, h3, h5]
  next db h6 =>
  split
  · next e h =>
    simp [Step.order, hf, hs, ho, h, h4]
    simp [Call.step, Env.outcome, h, h1, h2, h3, h5, h6]
  next h7 =>
  split
  · next e h =>
    simp [Step.order, hf, hs, ho, h, h4]
    simp [Call.step, Env.outcome, h, h1, h2, h3, h5, h6, h7]
  next id h8 =>
    simp [Step.order, hf, hs, ho, h4]
    simp [Call.step, Env.outcome, h1, h2, h3, h5, h6, h7, h8]

theorem snapshotterSwitch_some (snapshotterName : String)
    (hname : snapshotterName = "naive" ∨ snapshotterName = "overlayfs") :
    snapshotterSwitch snapshotterName =
      some (if snapshotterName = "naive" then SnapshotterNew.naive
        else SnapshotterNew.overlay) := by
  rcases hname with h | h <;> subst h <;> decide

/-- The calls of a snapshotter constructor made by `NewWorkerOpt`: one call of
the function held by `snapshotterNew` when the three earlier steps succeeded,
none otherwise. -/
theorem trace_snapshotterNew (env : Env) (root : String) (labels : Option Labels)
    (snapshotterName : String) (f : SnapshotterNew)
    (hf : snapshotterSwitch snapshotterName = some f) :
    (NewWorkerOpt env root labels snapshotterName).trace.filter
        (fun c => c.step = Step.snapshotterNew) =
      if env.outcome (Call.mkdirAll (env.filepathJoin root ("runc-" ++ snapshotterName)) 0o700)
            = none ∧
          env.outcome (Call.metadataNewStore (env.filepathJoin
            (env.filepathJoin root ("runc-" ++ snapshotterName)) "metadata.db")) = none ∧
          env.outcome (Call.runcexecutorNew (env.filepathJoin
            (env.filepathJoin root ("runc-" ++ snapshotterName)) "executor")) = none
      then [f.call (env.filepathJoin
            (env.filepathJoin root ("runc-" ++ snapshotterName)) "snapshots")]
      else [] := by
  have hs : ∀ p, (f.call p).step = Step.snapshotterNew := step_snapshotterNew f
  have e1 : ∀ p m, (Call.mkdirAll p m).step = Step.mkdirAll := fun _ _ => rfl
  have e2 : ∀ p, (Call.metadataNewStore p).step = Step.metadataNewStore := fun _ => rfl
  have e3 : ∀ p, (Call.runcexecutorNew p).step = Step.runcexecutorNew := fun _ => rfl
  have e4 : ∀ p, (Call.localNewStore p).step = Step.localNewStore := fun _ => rfl
  have e5 : ∀ p m, (Call.boltOpen p m).step = Step.boltOpen := fun _ _ => rfl
  have e6 : ∀ m, (Call.mdbInit m).step = Step.mdbInit := fun _ => rfl
  have e7 : ∀ p, (Call.baseID p).step = Step.baseID := fun _ => rfl
  simp only [NewWorkerOpt, hf]
  repeat' split
  all_goals simp_all [Env.outcome, List.filter_cons]

/-- The function the switch assigns is the constructor named by the selector. -/
theorem snapshotterSwitch_apply (env : Env) (snapshotterName : String) (f : SnapshotterNew)
    (hf : snapshotterSwitch snapshotterName = some f) (p : String) :
    f.apply env p =
      (if snapshotterName = "naive" then env.naiveNewSnapshotter p
        else env.overlayNewSnapshotter p) ∧
    f.call p =
      (if snapshotterName = "naive" then Call.naiveNewSnapshotter p
        else Call.overlayNewSnapshotter p) := by
  unfold snapshotterSwitch at hf
  split at hf
  · next h =>
    cases hf
    simp [h, SnapshotterNew.apply, SnapshotterNew.call]
  · next h =>
    split at hf
    · cases hf
      simp [h, SnapshotterNew.apply, SnapshotterNew.call]
    · cases hf

/-! ## Claims about `NewWorkerOpt` -/

/-- C1: `NewWorkerOpt` returns the error
`errors.Errorf("unknown snapshotter name: %q", snapshotterName)` if and only if
`snapshotterName` is neither `"naive"` nor `"overlayfs"`; in that case no
collaborator has been called (no directory created, no store opened) and the
`WorkerOpt` is the zero value, for every root and every labels map. -/
theorem NewWorkerOpt_unknown_snapshotter (env : Env) (root : String) (labels : Option Labels)
    (snapshotterName : String) :
    ((NewWorkerOpt env root labels snapshotterName).err =
        some (GoError.errorf "unknown snapshotter name: %q" [snapshotterName]) ↔
      (snapshotterName ≠ "naive" ∧ snapshotterName ≠ "overlayfs")) ∧
    ((snapshotterName ≠ "naive" ∧ snapshotterName ≠ "overlayfs") →
      (NewWorkerOpt env root labels snapshotterName).trace = [] ∧
      (NewWorkerOpt env root labels snapshotterName).opt = WorkerOpt.zero) := by
  have hsteps := (NewWorkerOpt_steps env root labels snapshotterName).2.2.1
  rw [← snapshotterSwitch_eq_none_iff]
  constructor
  · constructor
    · intro h
      rcases (hsteps _ h).2 with h1 | ⟨_, _, _, _, _, h3⟩
      · exact h1.1
      · cases h3
    · intro h
      simp [NewWorkerOpt, h]
  · intro h
    simp [NewWorkerOpt, h]

/-- Witness of C1: the selectors `"overlay"`, `""` and `"Naive"` are rejected
before any collaborator is called. -/
theorem NewWorkerOpt_unknown_snapshotter_witness :
    (("overlay" ≠ "naive" ∧ "overlay" ≠ "overlayfs") ∧
      (NewWorkerOpt okEnv "/var/lib/img" none "overlay").trace = [] ∧
      (NewWorkerOpt okEnv "/var/lib/img" none "overlay").opt = WorkerOpt.zero) ∧
    ((NewWorkerOpt okEnv "/var/lib/img" none "").trace = [] ∧
      (NewWorkerOpt okEnv "/var/lib/img" none "").opt = WorkerOpt.zero) ∧
    ((NewWorkerOpt okEnv "/var/lib/img" none "Naive").trace = [] ∧
      (NewWorkerOpt okEnv "/var/lib/img" none "Naive").opt = WorkerOpt.zero) :=
  ⟨⟨by decide, (NewWorkerOpt_unknown_snapshotter okEnv "/var/lib/img" none "overlay").2
      (by decide)⟩,
   (NewWorkerOpt_unknown_snapshotter okEnv "/var/lib/img" none "").2 (by decide),
   (NewWorkerOpt_unknown_snapshotter okEnv "/var/lib/img" none "Naive").2 (by decide)⟩

/-- C9: `NewWorkerOpt` is fail-fast.  The steps performed are an initial segment
of the order `os.MkdirAll, metadata.NewStore, runcexecutor.New, snapshotterNew,
local.NewStore, bolt.Open, mdb.Init, base.ID`; every performed step but the last
succeeded, so no step follows a failing one; when an error is returned the
`WorkerOpt` is the zero value and the error is that of the last performed step
(with an unknown selector no step is performed and the error is the
unknown-selector error); the error is nil exactly when the selector is valid and
all eight steps were performed and succeeded. -/
theorem NewWorkerOpt_fail_fast (env : Env) (root : String) (labels : Option Labels)
    (snapshotterName : String) :
    ((NewWorkerOpt env root labels snapshotterName).trace.map Call.step <+: Step.order) ∧
    (∀ c ∈ (NewWorkerOpt env root labels snapshotterName).trace.dropLast,
        env.outcome c = none) ∧
    (∀ e, (NewWorkerOpt env root labels snapshotterName).err = some e →
        (NewWorkerOpt env root labels snapshotterName).opt = WorkerOpt.zero ∧
        ((snapshotterSwitch snapshotterName = none ∧
            (NewWorkerOpt env root labels snapshotterName).trace = [] ∧
            e = GoError.errorf "unknown snapshotter name: %q" [snapshotterName]) ∨
         (snapshotterSwitch snapshotterName ≠ none ∧
            ∃ c code, (NewWorkerOpt env root labels snapshotterName).trace.getLast? = some c ∧
              env.outcome c = some code ∧ e = GoError.external code))) ∧
    ((NewWorkerOpt env root labels snapshotterName).err = none ↔
        (snapshotterSwitch snapshotterName ≠ none ∧
          (NewWorkerOpt env root labels snapshotterName).trace.map Call.step = Step.order ∧
          ∀ c ∈ (NewWorkerOpt env root labels snapshotterName).trace, env.outcome c = none)) :=
  NewWorkerOpt_steps env root labels snapshotterName

/-- Witness of C9: with `os.MkdirAll` failing with code 13 the call returns that
error and the zero `WorkerOpt`, and `os.MkdirAll` is the only step performed. -/
theorem NewWorkerOpt_fail_fast_witness :
    (NewWorkerOpt mkdirFailsEnv "/var/lib/img" none "naive").err
        = some (GoError.external 13) ∧
    (NewWorkerOpt mkdirFailsEnv "/var/lib/img" none "naive").opt = WorkerOpt.zero ∧
    (NewWorkerOpt mkdirFailsEnv "/var/lib/img" none "naive").trace.map Call.step
        = [Step.mkdirAll] :=
  ⟨rfl,
   ((NewWorkerOpt_fail_fast mkdirFailsEnv "/var/lib/img" none "naive").2.2.1
      (GoError.external 13) rfl).1,
   rfl⟩

/-- Counterexample to C2 as stated: with selector `"naive"` and `os.MkdirAll`
failing, the call returns before `snapshotterNew` is reached, so
`naive.NewSnapshotter` is called zero times, not once, and the returned
`Snapshotter` field is nil. -/
theorem snapshotter_backend_not_reached :
    ¬ ((NewWorkerOpt mkdirFailsEnv "/var/lib/img" none "naive").trace.countP
          (fun c => c.step = Step.snapshotterNew) = 1) ∧
    (NewWorkerOpt mkdirFailsEnv "/var/lib/img" none "naive").opt.Snapshotter.isNone := by
  decide

/-- C2, amended: for a selector `"naive"` or `"overlayfs"` the only snapshotter
constructor `NewWorkerOpt` ever calls is the selected one (`naive.NewSnapshotter`
for `"naive"`, `overlay.NewSnapshotter` for `"overlayfs"`), with the path
`Join(Join(root, "runc-" + snapshotterName), "snapshots")`, at most once; it is
called exactly once precisely when `os.MkdirAll`, `metadata.NewStore` and
`runcexecutor.New` have succeeded.  On a nil error it was called exactly once,
its result `s` is the only entry of the map given to `ctdmetadata.NewDB`, under
the key `snapshotterName`, and the `Snapshotter` field wraps
`mdb.Snapshotter(snapshotterName)` for that `mdb`, whose map has `s` at that
key. -/
theorem snapshotter_backend_resolved (env : Env) (root : String) (labels : Option Labels)
    (snapshotterName : String)
    (hname : snapshotterName = "naive" ∨ snapshotterName = "overlayfs") :
    ((NewWorkerOpt env root labels snapshotterName).trace.filter
          (fun c => c.step = Step.snapshotterNew) = [] ∨
      (NewWorkerOpt env root labels snapshotterName).trace.filter
          (fun c => c.step = Step.snapshotterNew) =
        [if snapshotterName = "naive" then
            Call.naiveNewSnapshotter (env.filepathJoin
              (env.filepathJoin root ("runc-" ++ snapshotterName)) "snapshots")
          else
            Call.overlayNewSnapshotter (env.filepathJoin
              (env.filepathJoin root ("runc-" ++ snapshotterName)) "snapshots")]) ∧
    ((env.outcome (Call.mkdirAll (env.filepathJoin root ("runc-" ++ snapshotterName)) 0o700)
          = none ∧
        env.outcome (Call.metadataNewStore (env.filepathJoin
          (env.filepathJoin root ("runc-" ++ snapshotterName)) "metadata.db")) = none ∧
        env.outcome (Call.runcexecutorNew (env.filepathJoin
          (env.filepathJoin root ("runc-" ++ snapshotterName)) "executor")) = none) ↔
      (NewWorkerOpt env root labels snapshotterName).trace.filter
          (fun c => c.step = Step.snapshotterNew) =
        [if snapshotterName = "naive" then
            Call.naiveNewSnapshotter (env.filepathJoin
              (env.filepathJoin root ("runc-" ++ snapshotterName)) "snapshots")
          else
            Call.overlayNewSnapshotter (env.filepathJoin
              (env.filepathJoin root ("runc-" ++ snapshotterName)) "snapshots")]) ∧
    ((NewWorkerOpt env root labels snapshotterName).err = none →
      (NewWorkerOpt env root labels snapshotterName).trace.filter
          (fun c => c.step = Step.snapshotterNew) =
        [if snapshotterName = "naive" then
            Call.naiveNewSnapshotter (env.filepathJoin
              (env.filepathJoin root ("runc-" ++ snapshotterName)) "snapshots")
          else
            Call.overlayNewSnapshotter (env.filepathJoin
              (env.filepathJoin root ("runc-" ++ snapshotterName)) "snapshots")] ∧
      ∃ s sn,
        (if snapshotterName = "naive" then
            env.naiveNewSnapshotter (env.filepathJoin
              (env.filepathJoin root ("runc-" ++ snapshotterName)) "snapshots")
          else
            env.overlayNewSnapshotter (env.filepathJoin
              (env.filepathJoin root ("runc-" ++ snapshotterName)) "snapshots")) = .ok s ∧
        (NewWorkerOpt env root labels snapshotterName).opt.Snapshotter = some sn ∧
        sn.inner.name = snapshotterName ∧
        sn.inner.mdb.ss = [(snapshotterName, s)] ∧
        sn.inner.mdb.ss.lookup sn.inner.name = some s) := by
  have hf := snapshotterSwitch_some snapshotterName hname
  have ht := trace_snapshotterNew env root labels snapshotterName _ hf
  have hc : ∀ p, (if snapshotterName = "naive" then SnapshotterNew.naive
        else SnapshotterNew.overlay).call p =
      if snapshotterName = "naive" then Call.naiveNewSnapshotter p
        else Call.overlayNewSnapshotter p := by
    intro p; split <;> rfl
  have ha : ∀ p, (if snapshotterName = "naive" then SnapshotterNew.naive
        else SnapshotterNew.overlay).apply env p =
      if snapshotterName = "naive" then env.naiveNewSnapshotter p
        else env.overlayNewSnapshotter p := by
    intro p; split <;> rfl
  rw [hc] at ht
  refine ⟨?_, ?_, ?_⟩
  · rw [ht]
    split
    · exact Or.inr rfl
    · exact Or.inl rfl
  · rw [ht]
    constructor
    · intro h
      rw [if_pos h]
    · intro h
      by_contra hn
      rw [if_neg hn] at h
      cases h
  · intro h
    obtain ⟨f, md, exe, s, c0, db, id, hf1, h1, h2, h3, h4, -, -, -, -, heq⟩ :=
      NewWorkerOpt_ok env root labels snapshotterName h
    rw [hf] at hf1
    cases hf1
    rw [ha] at h4
    refine ⟨?_, ?_⟩
    · rw [ht, if_pos]
      simp [Env.outcome, h1, h2, h3]
    · rw [heq]
      exact ⟨s, _, h4, rfl, rfl, rfl, by simp [MetaDB.ss, List.lookup]⟩

/-- Witness of C2, amended: selector `"overlayfs"` with all collaborators
succeeding. -/
theorem snapshotter_backend_resolved_witness :
    (NewWorkerOpt okEnv "/var/lib/img" none "overlayfs").trace.filter
        (fun c => c.step = Step.snapshotterNew) =
      [Call.overlayNewSnapshotter "/var/lib/img/runc-overlayfs/snapshots"] :=
  ((snapshotter_backend_resolved okEnv "/var/lib/img" none "overlayfs"
      (Or.inr rfl)).2.2 rfl).1

/-- C3: on a nil error the `WorkerOpt` exposes the garbage-collection-aware
wrappers.  `ContentStore` is
`c = NewContentStore(mdb.ContentStore(), "buildkit", gc)`, `Snapshotter` is
`NewSnapshotter(mdb.Snapshotter(snapshotterName), c, md, "buildkit", gc)` with
the same `gc` and the same `mdb`, the applier and the differ are built on that
same `c`, and `c` is not a `local.NewStore` result: the local store is only the
store `mdb` was built on. -/
theorem gc_aware_wrappers (env : Env) (root : String) (labels : Option Labels)
    (snapshotterName : String)
    (h : (NewWorkerOpt env root labels snapshotterName).err = none) :
    ∃ mdb md c0,
      env.localNewStore (env.filepathJoin
        (env.filepathJoin root ("runc-" ++ snapshotterName)) "content") = .ok c0 ∧
      mdb.cs = ContentStore.localStore c0 ∧
      env.metadataNewStore (env.filepathJoin
        (env.filepathJoin root ("runc-" ++ snapshotterName)) "metadata.db") = .ok md ∧
      (NewWorkerOpt env root labels snapshotterName).opt.ContentStore =
        some (ContentStore.gcAware (ContentStore.ofDB mdb) "buildkit" (GCFunc.closure mdb)) ∧
      (NewWorkerOpt env root labels snapshotterName).opt.Snapshotter =
        some ⟨⟨mdb, snapshotterName⟩,
          ContentStore.gcAware (ContentStore.ofDB mdb) "buildkit" (GCFunc.closure mdb),
          md, "buildkit", GCFunc.closure mdb⟩ ∧
      (NewWorkerOpt env root labels snapshotterName).opt.Applier =
        some ⟨ContentStore.gcAware (ContentStore.ofDB mdb) "buildkit" (GCFunc.closure mdb)⟩ ∧
      (NewWorkerOpt env root labels snapshotterName).opt.Differ =
        some ⟨ContentStore.gcAware (ContentStore.ofDB mdb) "buildkit" (GCFunc.closure mdb)⟩ ∧
      ∀ s, ContentStore.gcAware (ContentStore.ofDB mdb) "buildkit" (GCFunc.closure mdb) ≠
        ContentStore.localStore s := by
  obtain ⟨f, md, exe, s, c0, db, id, -, -, h2, -, -, h5, -, -, -, heq⟩ :=
    NewWorkerOpt_ok env root labels snapshotterName h
  rw [heq]
  exact ⟨MetaDB.newDB db (ContentStore.localStore c0) [(snapshotterName, s)], md, c0, h5, rfl,
    h2, rfl, rfl, rfl, rfl, fun _ hc => by cases hc⟩

/-- Witness of C3: selector `"naive"` with all collaborators succeeding. -/
theorem gc_aware_wrappers_witness :
    ∃ mdb md c0,
      okEnv.localNewStore (okEnv.filepathJoin
        (okEnv.filepathJoin "/var/lib/img" ("runc-" ++ "naive")) "content") = .ok c0 ∧
      mdb.cs = ContentStore.localStore c0 ∧
      okEnv.metadataNewStore (okEnv.filepathJoin
        (okEnv.filepathJoin "/var/lib/img" ("runc-" ++ "naive")) "metadata.db") = .ok md ∧
      (NewWorkerOpt okEnv "/var/lib/img" none "naive").opt.ContentStore =
        some (ContentStore.gcAware (ContentStore.ofDB mdb) "buildkit" (GCFunc.closure mdb)) ∧
      (NewWorkerOpt okEnv "/var/lib/img" none "naive").opt.Snapshotter =
        some ⟨⟨mdb, "naive"⟩,
          ContentStore.gcAware (ContentStore.ofDB mdb) "buildkit" (GCFunc.closure mdb),
          md, "buildkit", GCFunc.closure mdb⟩ ∧
      (NewWorkerOpt okEnv "/var/lib/img" none "naive").opt.Applier =
        some ⟨ContentStore.gcAware (ContentStore.ofDB mdb) "buildkit" (GCFunc.closure mdb)⟩ ∧
      (NewWorkerOpt okEnv "/var/lib/img" none "naive").opt.Differ =
        some ⟨ContentStore.gcAware (ContentStore.ofDB mdb) "buildkit" (GCFunc.closure mdb)⟩ ∧
      ∀ s, ContentStore.gcAware (ContentStore.ofDB mdb) "buildkit" (GCFunc.closure mdb) ≠
        ContentStore.localStore s :=
  gc_aware_wrappers okEnv "/var/lib/img" none "naive" rfl

/-- C4: on a nil error `SessionManager` holds its zero value and `ImageStore`
is nil, while each of the other eight fields is assigned from the components
the call constructed.  With `id`, `md`, `exe`, `s`, `c0` and `db` the results of
`base.ID`, `metadata.NewStore`, `runcexecutor.New`, the selected snapshotter
constructor, `local.NewStore` and `bolt.Open`, with
`mdb = NewDB(db, c0, {snapshotterName: s})` and
`c = NewContentStore(mdb.ContentStore(), "buildkit", gc)`, the returned struct
is exactly `ID: id`, `Labels:` the merged map, `MetadataStore: md`,
`Executor: exe`,
`Snapshotter: NewSnapshotter(mdb.Snapshotter(snapshotterName), c, md, "buildkit", gc)`,
`ContentStore: c`, `Applier: NewFileSystemApplier(c)`,
`Differ: NewWalkingDiff(c)`, where `gc` is the closure over `mdb`. -/
theorem session_manager_unset (env : Env) (root : String) (labels : Option Labels)
    (snapshotterName : String)
    (h : (NewWorkerOpt env root labels snapshotterName).err = none) :
    (NewWorkerOpt env root labels snapshotterName).opt.SessionManager = none ∧
    (NewWorkerOpt env root labels snapshotterName).opt.ImageStore = none ∧
    ∃ id md exe s c0 db mdb c,
      env.baseID (env.filepathJoin root ("runc-" ++ snapshotterName)) = .ok id ∧
      env.metadataNewStore (env.filepathJoin
        (env.filepathJoin root ("runc-" ++ snapshotterName)) "metadata.db") = .ok md ∧
      env.runcexecutorNew (env.filepathJoin
        (env.filepathJoin root ("runc-" ++ snapshotterName)) "executor") = .ok exe ∧
      (if snapshotterName = "naive" then
          env.naiveNewSnapshotter (env.filepathJoin
            (env.filepathJoin root ("runc-" ++ snapshotterName)) "snapshots")
        else
          env.overlayNewSnapshotter (env.filepathJoin
            (env.filepathJoin root ("runc-" ++ snapshotterName)) "snapshots")) = .ok s ∧
      env.localNewStore (env.filepathJoin
        (env.filepathJoin root ("runc-" ++ snapshotterName)) "content") = .ok c0 ∧
      env.boltOpen (env.filepathJoin
        (env.filepathJoin root ("runc-" ++ snapshotterName)) "containerdmeta.db") 0o644
          = .ok db ∧
      mdb = MetaDB.newDB db (ContentStore.localStore c0) [(snapshotterName, s)] ∧
      c = ContentStore.gcAware (ContentStore.ofDB mdb) "buildkit" (GCFunc.closure mdb) ∧
      (NewWorkerOpt env root labels snapshotterName).opt =
        { ID := id
          Labels := some (mergeLabels (env.baseLabels "oci" snapshotterName) labels)
          SessionManager := none
          MetadataStore := some md
          Executor := some exe
          Snapshotter := some ⟨⟨mdb, snapshotterName⟩, c, md, "buildkit", GCFunc.closure mdb⟩
          ContentStore := some c
          Applier := some ⟨c⟩
          Differ := some ⟨c⟩
          ImageStore := none } := by
  obtain ⟨f, md, exe, s, c0, db, id, hf, -, h2, h3, h4, h5, h6, -, h8, heq⟩ :=
    NewWorkerOpt_ok env root labels snapshotterName h
  rw [(snapshotterSwitch_apply env snapshotterName f hf _).1] at h4
  rw [heq]
  exact ⟨rfl, rfl, id, md, exe, s, c0, db, _, _, h8, h2, h3, h4, h5, h6, rfl, rfl, rfl⟩

/-- Witness of C4: selector `"overlayfs"` with all collaborators succeeding; the
snapshotter registered in `mdb` is the one `overlay.NewSnapshotter` returned. -/
theorem session_manager_unset_witness :
    (NewWorkerOpt okEnv "/var/lib/img" none "overlayfs").opt.SessionManager = none ∧
    (NewWorkerOpt okEnv "/var/lib/img" none "overlayfs").opt.ImageStore = none ∧
    ∃ id md exe s c0 db mdb c,
      okEnv.baseID (okEnv.filepathJoin "/var/lib/img" ("runc-" ++ "overlayfs")) = .ok id ∧
      okEnv.metadataNewStore (okEnv.filepathJoin
        (okEnv.filepathJoin "/var/lib/img" ("runc-" ++ "overlayfs")) "metadata.db") = .ok md ∧
      okEnv.runcexecutorNew (okEnv.filepathJoin
        (okEnv.filepathJoin "/var/lib/img" ("runc-" ++ "overlayfs")) "executor") = .ok exe ∧
      (if "overlayfs" = "naive" then
          okEnv.naiveNewSnapshotter (okEnv.filepathJoin
            (okEnv.filepathJoin "/var/lib/img" ("runc-" ++ "overlayfs")) "snapshots")
        else
          okEnv.overlayNewSnapshotter (okEnv.filepathJoin
            (okEnv.filepathJoin "/var/lib/img" ("runc-" ++ "overlayfs")) "snapshots"))
          = .ok s ∧
      okEnv.localNewStore (okEnv.filepathJoin
        (okEnv.filepathJoin "/var/lib/img" ("runc-" ++ "overlayfs")) "content") = .ok c0 ∧
      okEnv.boltOpen (okEnv.filepathJoin
        (okEnv.filepathJoin "/var/lib/img" ("runc-" ++ "overlayfs")) "containerdmeta.db")
          0o644 = .ok db ∧
      mdb = MetaDB.newDB db (ContentStore.localStore c0) [("overlayfs", s)] ∧
      c = ContentStore.gcAware (ContentStore.ofDB mdb) "buildkit" (GCFunc.closure mdb) ∧
      (NewWorkerOpt okEnv "/var/lib/img" none "overlayfs").opt =
        { ID := id
          Labels := some (mergeLabels (okEnv.baseLabels "oci" "overlayfs") none)
          SessionManager := none
          MetadataStore := some md
          Executor := some exe
          Snapshotter := some ⟨⟨mdb, "overlayfs"⟩, c, md, "buildkit", GCFunc.closure mdb⟩
          ContentStore := some c
          Applier := some ⟨c⟩
          Differ := some ⟨c⟩
          ImageStore := none } :=
  session_manager_unset okEnv "/var/lib/img" none "overlayfs" rfl

/-- Counterexample to C5 as stated: a call that returns a nil error opens two
durable database files, `metadata.db` and `containerdmeta.db`, not one. -/
theorem two_databases_opened :
    ¬ ((NewWorkerOpt okEnv "/var/lib/img" none "naive").err = none →
        (NewWorkerOpt okEnv "/var/lib/img" none "naive").trace.countP Call.opensDatabase = 1) := by
  decide

/-- C5, amended: a call that returns a nil error makes exactly the eight
collaborator calls listed, and the two of them that open a durable database
file under `Join(root, "runc-" + snapshotterName)` are `metadata.NewStore` on
`metadata.db`, whose store becomes the `MetadataStore` field, and `bolt.Open` on
`containerdmeta.db`, each once.  The latter database `db` is the one given to
`ctdmetadata.NewDB`, together with the `local.NewStore` result `c0` and the map
with the single entry `snapshotterName: s`, `s` the result of the selected
snapshotter constructor: the `mdb` behind the `Snapshotter` field is
`NewDB(db, c0, {snapshotterName: s})`, and `mdb.Init` is run once, on it. -/
theorem two_metadata_databases (env : Env) (root : String) (labels : Option Labels)
    (snapshotterName : String)
    (h : (NewWorkerOpt env root labels snapshotterName).err = none) :
    (NewWorkerOpt env root labels snapshotterName).trace.filter Call.opensDatabase =
      [Call.metadataNewStore (env.filepathJoin
          (env.filepathJoin root ("runc-" ++ snapshotterName)) "metadata.db"),
       Call.boltOpen (env.filepathJoin
          (env.filepathJoin root ("runc-" ++ snapshotterName)) "containerdmeta.db") 0o644] ∧
    ∃ md s c0 db sn,
      env.metadataNewStore (env.filepathJoin
        (env.filepathJoin root ("runc-" ++ snapshotterName)) "metadata.db") = .ok md ∧
      (NewWorkerOpt env root labels snapshotterName).opt.MetadataStore = some md ∧
      (if snapshotterName = "naive" then
          env.naiveNewSnapshotter (env.filepathJoin
            (env.filepathJoin root ("runc-" ++ snapshotterName)) "snapshots")
        else
          env.overlayNewSnapshotter (env.filepathJoin
            (env.filepathJoin root ("runc-" ++ snapshotterName)) "snapshots")) = .ok s ∧
      env.localNewStore (env.filepathJoin
        (env.filepathJoin root ("runc-" ++ snapshotterName)) "content") = .ok c0 ∧
      env.boltOpen (env.filepathJoin
        (env.filepathJoin root ("runc-" ++ snapshotterName)) "containerdmeta.db") 0o644
          = .ok db ∧
      (NewWorkerOpt env root labels snapshotterName).opt.Snapshotter = some sn ∧
      sn.inner.mdb = MetaDB.newDB db (ContentStore.localStore c0) [(snapshotterName, s)] ∧
      (NewWorkerOpt env root labels snapshotterName).trace.filter
          (fun c => c.step = Step.mdbInit) = [Call.mdbInit sn.inner.mdb] ∧
      (NewWorkerOpt env root labels snapshotterName).trace =
        [Call.mkdirAll (env.filepathJoin root ("runc-" ++ snapshotterName)) 0o700,
         Call.metadataNewStore (env.filepathJoin
            (env.filepathJoin root ("runc-" ++ snapshotterName)) "metadata.db"),
         Call.runcexecutorNew (env.filepathJoin
            (env.filepathJoin root ("runc-" ++ snapshotterName)) "executor"),
         (if snapshotterName = "naive" then
            Call.naiveNewSnapshotter (env.filepathJoin
              (env.filepathJoin root ("runc-" ++ snapshotterName)) "snapshots")
          else
            Call.overlayNewSnapshotter (env.filepathJoin
              (env.filepathJoin root ("runc-" ++ snapshotterName)) "snapshots")),
         Call.localNewStore (env.filepathJoin
            (env.filepathJoin root ("runc-" ++ snapshotterName)) "content"),
         Call.boltOpen (env.filepathJoin
            (env.filepathJoin root ("runc-" ++ snapshotterName)) "containerdmeta.db") 0o644,
         Call.mdbInit sn.inner.mdb,
         Call.baseID (env.filepathJoin root ("runc-" ++ snapshotterName))] := by
  obtain ⟨f, md, exe, s, c0, db, id, hf, -, h2, -, h4, h5, h6, -, -, heq⟩ :=
    NewWorkerOpt_ok env root labels snapshotterName h
  have hsw := snapshotterSwitch_apply env snapshotterName f hf
  rw [(hsw _).1] at h4
  rw [heq]
  have hs : ∀ p, (f.call p).step = Step.snapshotterNew := step_snapshotterNew f
  have hd : ∀ p, (f.call p).opensDatabase = false := by
    intro p; cases f <;> rfl
  refine ⟨?_, md, s, c0, db, _, h2, rfl, h4, h5, h6, rfl, rfl, ?_, ?_⟩
  · have d1 : ∀ p m, (Call.mkdirAll p m).opensDatabase = false := fun _ _ => rfl
    have d2 : ∀ p, (Call.metadataNewStore p).opensDatabase = true := fun _ => rfl
    have d3 : ∀ p, (Call.runcexecutorNew p).opensDatabase = false := fun _ => rfl
    have d4 : ∀ p, (Call.localNewStore p).opensDatabase = false := fun _ => rfl
    have d5 : ∀ p m, (Call.boltOpen p m).opensDatabase = true := fun _ _ => rfl
    have d6 : ∀ m, (Call.mdbInit m).opensDatabase = false := fun _ => rfl
    have d7 : ∀ p, (Call.baseID p).opensDatabase = false := fun _ => rfl
    simp [List.filter_cons, d1, d2, d3, d4, d5, d6, d7, hd]
  · have e1 : ∀ p m, (Call.mkdirAll p m).step = Step.mkdirAll := fun _ _ => rfl
    have e2 : ∀ p, (Call.metadataNewStore p).step = Step.metadataNewStore := fun _ => rfl
    have e3 : ∀ p, (Call.runcexecutorNew p).step = Step.runcexecutorNew := fun _ => rfl
    have e4 : ∀ p, (Call.localNewStore p).step = Step.localNewStore := fun _ => rfl
    have e5 : ∀ p m, (Call.boltOpen p m).step = Step.boltOpen := fun _ _ => rfl
    have e6 : ∀ m, (Call.mdbInit m).step = Step.mdbInit := fun _ => rfl
    have e7 : ∀ p, (Call.baseID p).step = Step.baseID := fun _ => rfl
    simp [List.filter_cons, e1, e2, e3, e4, e5, e6, e7, hs]
  · rw [(hsw _).2]

/-- Witness of C5, amended: selector `"naive"` with all collaborators
succeeding. -/
theorem two_metadata_databases_witness :
    (NewWorkerOpt okEnv "/var/lib/img" none "naive").trace.filter Call.opensDatabase =
      [Call.metadataNewStore "/var/lib/img/runc-naive/metadata.db",
       Call.boltOpen "/var/lib/img/runc-naive/containerdmeta.db" 0o644] ∧
    ∃ sn,
      (NewWorkerOpt okEnv "/var/lib/img" none "naive").opt.Snapshotter = some sn ∧
      sn.inner.mdb = MetaDB.newDB ⟨6⟩ (ContentStore.localStore ⟨5⟩) [("naive", ⟨3⟩)] := by
  obtain ⟨h1, md, s, c0, db, sn, -, -, h4, h5, h6, h7, h8, -, -⟩ :=
    two_metadata_databases okEnv "/var/lib/img" none "naive" rfl
  refine ⟨h1, sn, h7, ?_⟩
  cases h4
  cases h5
  cases h6
  exact h8

/-- C7: the one closure `gc` that a successful `NewWorkerOpt` hands to both
wrappers captures the `mdb` of that call, and for every `GarbageCollect`, every
context and every world, `gc(ctx)` invokes `mdb.GarbageCollect(ctx)` exactly
once, leaves the world as that one invocation left it, and returns exactly the
error of that invocation (nil if and only if that error is nil); the statistics
are dropped. -/
theorem gc_reports_error {W S : Type}
    (GarbageCollect : MetaDB → Context → W → (S × Option ExtError) × W)
    (env : Env) (root : String) (labels : Option Labels) (snapshotterName : String)
    (h : (NewWorkerOpt env root labels snapshotterName).err = none) :
    ∃ gc sn,
      (NewWorkerOpt env root labels snapshotterName).opt.ContentStore =
        some (ContentStore.gcAware (ContentStore.ofDB gc.mdb) "buildkit" gc) ∧
      (NewWorkerOpt env root labels snapshotterName).opt.Snapshotter = some sn ∧
      sn.gc = gc ∧ sn.inner.mdb = gc.mdb ∧
      ∀ ctx w,
        (gc.run GarbageCollect ctx w).1 = [(gc.mdb, ctx)] ∧
        (gc.run GarbageCollect ctx w).2.1 =
          (GarbageCollect gc.mdb ctx w).1.2.map GoError.external ∧
        (gc.run GarbageCollect ctx w).2.2 = (GarbageCollect gc.mdb ctx w).2 ∧
        ((gc.run GarbageCollect ctx w).2.1 = none ↔
          (GarbageCollect gc.mdb ctx w).1.2 = none) := by
  obtain ⟨f, md, exe, s, c0, db, id, -, -, -, -, -, -, -, -, -, heq⟩ :=
    NewWorkerOpt_ok env root labels snapshotterName h
  rw [heq]
  refine ⟨GCFunc.closure (MetaDB.newDB db (ContentStore.localStore c0) [(snapshotterName, s)]),
    _, rfl, rfl, rfl, rfl, ?_⟩
  intro ctx w
  simp [GCFunc.run, GCFunc.mdb]

/-- Witness of C7: a failing garbage-collection pass is reported as that
failure by the closure of a successfully built worker. -/
theorem gc_reports_error_witness :
    ∃ gc sn,
      (NewWorkerOpt okEnv "/var/lib/img" none "naive").opt.ContentStore =
        some (ContentStore.gcAware (ContentStore.ofDB gc.mdb) "buildkit" gc) ∧
      (NewWorkerOpt okEnv "/var/lib/img" none "naive").opt.Snapshotter = some sn ∧
      sn.gc = gc ∧ sn.inner.mdb = gc.mdb ∧
      ∀ ctx w,
        (gc.run failingGarbageCollect ctx w).1 = [(gc.mdb, ctx)] ∧
        (gc.run failingGarbageCollect ctx w).2.1 =
          (failingGarbageCollect gc.mdb ctx w).1.2.map GoError.external ∧
        (gc.run failingGarbageCollect ctx w).2.2 = (failingGarbageCollect gc.mdb ctx w).2 ∧
        ((gc.run failingGarbageCollect ctx w).2.1 = none ↔
          (failingGarbageCollect gc.mdb ctx w).1.2 = none) :=
  gc_reports_error failingGarbageCollect okEnv "/var/lib/img" none "naive" rfl

/-- C8: on a nil error the `Labels` field is the default map
`D = base.Labels("oci", snapshotterName)` overridden by the caller's map: a key
of `labels` has the caller's value, a key not in `labels` has the value of `D`
(and is absent when `D` does not have it either); with a nil or an empty
`labels` the field is `D` itself. -/
theorem labels_override_defaults (env : Env) (root : String) (labels : Option Labels)
    (snapshotterName : String)
    (h : (NewWorkerOpt env root labels snapshotterName).err = none) :
    ∃ xlabels,
      (NewWorkerOpt env root labels snapshotterName).opt.Labels = some xlabels ∧
      (∀ l, labels = some l → ∀ k,
        (k ∈ l → xlabels.lookup k = l.lookup k) ∧
        (k ∉ l → xlabels.lookup k = (env.baseLabels "oci" snapshotterName).lookup k) ∧
        (k ∉ l → k ∉ env.baseLabels "oci" snapshotterName → k ∉ xlabels)) ∧
      (labels = none → xlabels = env.baseLabels "oci" snapshotterName) ∧
      (labels = some ∅ → xlabels = env.baseLabels "oci" snapshotterName) := by
  obtain ⟨f, md, exe, s, c0, db, id, -, -, -, -, -, -, -, -, -, heq⟩ :=
    NewWorkerOpt_ok env root labels snapshotterName h
  rw [heq]
  refine ⟨_, rfl, ?_, ?_, ?_⟩
  · intro l hl k
    subst hl
    have hk := lookup_mergeLabels_some (env.baseLabels "oci" snapshotterName) l k
    have hnone : k ∉ l → (mergeLabels (env.baseLabels "oci" snapshotterName) (some l)).lookup k
        = (env.baseLabels "oci" snapshotterName).lookup k := by
      intro hm
      rw [hk, AList.lookup_eq_none.mpr hm]
    refine ⟨?_, hnone, ?_⟩
    · intro hm
      rw [hk]
      obtain ⟨v, hv⟩ := Option.isSome_iff_exists.mp (AList.lookup_isSome.mpr hm)
      rw [hv]
    · intro hm hD
      rw [← AList.lookup_eq_none, hnone hm]
      exact AList.lookup_eq_none.mpr hD
  · intro hl
    subst hl
    rfl
  · intro hl
    subst hl
    rfl

/-- Witness of C8: the caller's value for `"executor"` replaces the default
one, and the caller's extra key is added. -/
theorem labels_override_defaults_witness :
    ∃ xlabels,
      (NewWorkerOpt okEnv "/var/lib/img"
        (some ((AList.singleton "executor" "custom").insert "zone" "eu")) "naive").opt.Labels
          = some xlabels ∧
      xlabels.lookup "executor" = some "custom" ∧
      xlabels.lookup "zone" = some "eu" ∧
      xlabels.lookup "other" = none := by
  obtain ⟨xlabels, h1, h2, -, -⟩ := labels_override_defaults okEnv "/var/lib/img"
    (some ((AList.singleton "executor" "custom").insert "zone" "eu")) "naive" rfl
  refine ⟨xlabels, h1, ?_, ?_, ?_⟩
  · rw [(h2 _ rfl "executor").1 (by decide)]
    decide
  · rw [(h2 _ rfl "zone").1 (by decide)]
    decide
  · rw [(h2 _ rfl "other").2.1 (by decide)]
    decide

/-! ## Garbage collection: mark computes the closure -/

theorem mem_objects_snapshot (s : GCStore) (k : String) :
    (Kind.snapshot, k) ∈ s.objects ↔ k ∈ s.snapshots.map Prod.fst := by
  simp [GCStore.objects]

theorem mem_objects_blob (s : GCStore) (d : String) :
    (Kind.blob, d) ∈ s.objects ↔ d ∈ s.blobs := by
  simp [GCStore.objects]

theorem mem_pins (s : GCStore) (r : Ref) :
    r ∈ s.pins ↔ (∃ l, (l, r) ∈ s.roots) ∨ ∃ id pins, (id, pins) ∈ s.leases ∧ r ∈ pins := by
  simp [GCStore.pins, List.mem_flatMap]

theorem reach_mem_objects (s : GCStore) (r : Ref) (h : Reach s r) : r ∈ s.objects := by
  cases h with
  | root _ h => exact h
  | pin _ _ h => exact h
  | parent _ _ h => exact h

theorem countP_lt_countP {α : Type} (p q : α → Bool) (l : List α)
    (himp : ∀ x, p x = true → q x = true) (x0 : α) (hx : x0 ∈ l) (hq : q x0 = true)
    (hp : p x0 = false) : l.countP p < l.countP q := by
  induction l with
  | nil => cases hx
  | cons a t ih =>
    rw [List.countP_cons, List.countP_cons]
    have hmono : t.countP p ≤ t.countP q := List.countP_mono_left (fun x _ => himp x)
    rcases List.mem_cons.mp hx with h | h
    · subst h
      simp [hq, hp]
      omega
    · have := ih h
      by_cases hpa : p a = true
      · simp [hpa, himp a hpa]
        exact this
      · simp [hpa]
        split <;> omega

/-- The traversal only adds marks. -/
theorem subset_markChains (n : Nat) (snaps : List (String × Option String))
    (m : List String) (k : String) (h : k ∈ m) : k ∈ markChains n snaps m := by
  induction n generalizing m with
  | zero => exact h
  | succ n ih =>
    simp only [markChains]
    split
    · exact ih _ (List.mem_cons_of_mem _ h)
    · exact h

/-- Whatever holds of the starting keys and is passed on from a key to its
parent holds of every marked key. -/
theorem markChains_induct (n : Nat) (snaps : List (String × Option String))
    (P : String → Prop) (hP : ∀ k p, (k, some p) ∈ snaps → P k → P p)
    (m : List String) (hm : ∀ k ∈ m, P k) : ∀ k ∈ markChains n snaps m, P k := by
  induction n generalizing m with
  | zero => exact hm
  | succ n ih =>
    simp only [markChains]
    split
    · next k0 p hf =>
      have hmem := List.mem_of_find?_eq_some hf
      have hpend := List.find?_some hf
      simp only [pending, Bool.and_eq_true, decide_eq_true_eq] at hpend
      apply ih
      intro k hk
      rcases List.mem_cons.mp hk with h | h
      · rw [h]
        exact hP k0 p hmem (hm k0 hpend.1)
      · exact hm k h
    · exact hm

/-- With enough rounds the marked keys are closed under parents. -/
theorem markChains_closed (n : Nat) (snaps : List (String × Option String))
    (m : List String) (hn : snaps.countP (unmarkedParent m) ≤ n) :
    ∀ k p, (k, some p) ∈ snaps → k ∈ markChains n snaps m → p ∈ markChains n snaps m := by
  induction n generalizing m with
  | zero =>
    intro k p hkp _
    have h0 : snaps.countP (unmarkedParent m) = 0 := Nat.le_zero.mp hn
    have := List.countP_eq_zero.mp h0 (k, some p) hkp
    simpa [markChains, unmarkedParent] using this
  | succ n ih =>
    simp only [markChains]
    split
    · next k0 p0 hf =>
      have hmem := List.mem_of_find?_eq_some hf
      have hpend := List.find?_some hf
      simp only [pending, Bool.and_eq_true, decide_eq_true_eq] at hpend
      apply ih
      have hlt : snaps.countP (unmarkedParent (p0 :: m)) < snaps.countP (unmarkedParent m) := by
        apply countP_lt_countP _ _ _ _ (k0, some p0) hmem
        · simp [unmarkedParent, hpend.2]
        · simp [unmarkedParent]
        · intro x hx
          obtain ⟨xk, xp⟩ := x
          cases xp with
          | none => simp [unmarkedParent] at hx
          | some q =>
            simp only [unmarkedParent, decide_eq_true_eq, List.mem_cons, not_or] at hx ⊢
            exact hx.2
      omega
    · next hnone =>
      intro k p hkp hk
      by_contra hp
      have hpend : pending m (k, some p) = true := by
        simp [pending, hk, hp]
      cases hf : snaps.find? (pending m) with
      | none => exact List.find?_eq_none.mp hf _ hkp hpend
      | some e =>
        obtain ⟨ek, ep⟩ := e
        cases ep with
        | some q => exact hnone ek q hf
        | none =>
          have := List.find?_some hf
          simp [pending] at this

theorem mem_mark_blob (s : GCStore) (d : String) :
    (Kind.blob, d) ∈ s.mark ↔ (Kind.blob, d) ∈ s.pins := by
  simp [GCStore.mark]

theorem mem_mark_snapshot (s : GCStore) (k : String) :
    (Kind.snapshot, k) ∈ s.mark ↔
      k ∈ markChains s.snapshots.length s.snapshots
        ((s.pins.filter (fun r => r.1 = Kind.snapshot)).map Prod.snd) := by
  simp [GCStore.mark]

theorem reach_of_mem_pins (s : GCStore) (r : Ref) (h : r ∈ s.pins) (hs : r ∈ s.objects) :
    Reach s r := by
  rcases (mem_pins s r).mp h with ⟨l, hl⟩ | ⟨id, pins, h1, h2⟩
  · exact Reach.root hl hs
  · exact Reach.pin h1 h2 hs

/-- Mark is sound: a marked stored object is in the closure. -/
theorem mark_sound (s : GCStore) (r : Ref) (h : r ∈ s.mark) (hs : r ∈ s.objects) :
    Reach s r := by
  obtain ⟨kind, key⟩ := r
  cases kind with
  | blob => exact reach_of_mem_pins s _ ((mem_mark_blob s key).mp h) hs
  | snapshot =>
    rw [mem_mark_snapshot] at h
    refine markChains_induct _ s.snapshots
      (fun k => (Kind.snapshot, k) ∈ s.objects → Reach s (Kind.snapshot, k)) ?_ _ ?_ key h hs
    · intro k p hkp hk hp
      have hks : (Kind.snapshot, k) ∈ s.objects :=
        (mem_objects_snapshot s k).mpr (List.mem_map.mpr ⟨_, hkp, rfl⟩)
      exact Reach.parent (hk hks) hkp hp
    · intro k hk hks
      obtain ⟨r, hr, hrk⟩ := List.mem_map.mp hk
      obtain ⟨hpin, hkind⟩ := List.mem_filter.mp hr
      obtain ⟨rk, rkey⟩ := r
      have h1 : rk = Kind.snapshot := by simpa using hkind
      have h2 : rkey = k := hrk
      subst h1 h2
      exact reach_of_mem_pins s _ hpin hks

/-- Mark is complete: an object of the closure is marked. -/
theorem mark_complete (s : GCStore) (r : Ref) (h : Reach s r) : r ∈ s.mark := by
  have pinned : ∀ r, r ∈ s.pins → r ∈ s.mark := by
    intro r hpin
    obtain ⟨kind, key⟩ := r
    cases kind with
    | blob => exact (mem_mark_blob s key).mpr hpin
    | snapshot =>
      rw [mem_mark_snapshot]
      apply subset_markChains
      exact List.mem_map.mpr ⟨(Kind.snapshot, key),
        List.mem_filter.mpr ⟨hpin, by simp⟩, rfl⟩
  induction h with
  | root hl _ => exact pinned _ ((mem_pins s _).mpr (Or.inl ⟨_, hl⟩))
  | pin h1 h2 _ => exact pinned _ ((mem_pins s _).mpr (Or.inr ⟨_, _, h1, h2⟩))
  | @parent k p _ hm _ ih =>
    rw [mem_mark_snapshot] at ih ⊢
    exact markChains_closed _ s.snapshots _ (List.countP_le_length _) k p hm ih

/-! ## Garbage collection: the sweep -/

theorem mem_objects_sweep (s : GCStore) (r : Ref) :
    r ∈ s.sweep.objects ↔ r ∈ s.objects ∧ r ∈ s.mark := by
  obtain ⟨kind, key⟩ := r
  cases kind with
  | blob =>
    rw [mem_objects_blob, mem_objects_blob]
    simp [GCStore.sweep, List.mem_filter]
  | snapshot =>
    rw [mem_objects_snapshot, mem_objects_snapshot]
    simp only [GCStore.sweep, List.mem_map, List.mem_filter, decide_eq_true_eq]
    constructor
    · rintro ⟨e, ⟨he, hk⟩, rfl⟩
      exact ⟨⟨e, he, rfl⟩, hk⟩
    · rintro ⟨⟨e, he, rfl⟩, hk⟩
      exact ⟨e, ⟨he, hk⟩, rfl⟩

/-- After a sweep the stored keys are exactly the closure. -/
theorem mem_objects_sweep_iff_reach (s : GCStore) (r : Ref) :
    r ∈ s.sweep.objects ↔ Reach s r := by
  rw [mem_objects_sweep]
  constructor
  · rintro ⟨h1, h2⟩
    exact mark_sound s r h2 h1
  · intro h
    exact ⟨reach_mem_objects s r h, mark_complete s r h⟩

/-- A sweep does not change the closure: the pins are kept, and so is every
object of the closure, with its record. -/
theorem reach_sweep (s : GCStore) (r : Ref) : Reach s.sweep r ↔ Reach s r := by
  constructor
  · intro h
    induction h with
    | root hl hs => exact Reach.root hl ((mem_objects_sweep s _).mp hs).1
    | pin h1 h2 hs => exact Reach.pin h1 h2 ((mem_objects_sweep s _).mp hs).1
    | parent _ hm hs ih =>
      exact Reach.parent ih (List.mem_filter.mp hm).1 ((mem_objects_sweep s _).mp hs).1
  · intro h
    induction h with
    | root hl hs =>
      exact Reach.root hl ((mem_objects_sweep_iff_reach s _).mpr (Reach.root hl hs))
    | pin h1 h2 hs =>
      exact Reach.pin h1 h2 ((mem_objects_sweep_iff_reach s _).mpr (Reach.pin h1 h2 hs))
    | @parent k p hr hm hs ih =>
      refine Reach.parent ih ?_ ((mem_objects_sweep_iff_reach s _).mpr (Reach.parent hr hm hs))
      exact List.mem_filter.mpr ⟨hm, by simpa using mark_complete s _ hr⟩

/-- The world after one pass run through a closure: the store of the database
behind its `mdb` is swept, every other store is as before, and the error is
nil. -/
theorem run_GarbageCollect (gc : GCFunc) (ctx : Context) (w : World) :
    (GCFunc.run GarbageCollect gc ctx w).2.1 = none ∧
    (GCFunc.run GarbageCollect gc ctx w).2.2 gc.mdb.db = (w gc.mdb.db).sweep ∧
    ∀ db, db ≠ gc.mdb.db → (GCFunc.run GarbageCollect gc ctx w).2.2 db = w db := by
  cases gc with
  | closure mdb =>
    refine ⟨rfl, ?_, ?_⟩
    · simp [GCFunc.run, GarbageCollect, GCFunc.mdb]
    · intro db hdb
      simp only [GCFunc.run, GarbageCollect, GCFunc.mdb] at hdb ⊢
      exact Function.update_noteq hdb _ _

/-- C6; the collector is modelled from sections 3, 4.3 and 6 of the
specification.  Let `gc` be the closure that a successful `NewWorkerOpt` hands
to both wrappers; it collects the store of the database `db` the call opened
with `bolt.Open`.  After a pass run through `gc`, the keys remaining in that
store are exactly the transitive closure of the root labels and the live lease
pins through the parent chain: no object of the closure is deleted, and an
object outside the closure is gone after the first pass and after a second,
consecutive one; after the second pass the keys are the same closure.  A pass
changes neither the root labels nor the leases, nor the store of another
database. -/
theorem gc_pass_closure (env : Env) (root : String) (labels : Option Labels)
    (snapshotterName : String)
    (h : (NewWorkerOpt env root labels snapshotterName).err = none) :
    ∃ gc db sn,
      env.boltOpen (env.filepathJoin
        (env.filepathJoin root ("runc-" ++ snapshotterName)) "containerdmeta.db") 0o644
          = .ok db ∧
      gc.mdb.db = db ∧
      (NewWorkerOpt env root labels snapshotterName).opt.ContentStore =
        some (ContentStore.gcAware (ContentStore.ofDB gc.mdb) "buildkit" gc) ∧
      (NewWorkerOpt env root labels snapshotterName).opt.Snapshotter = some sn ∧
      sn.gc = gc ∧
      ∀ (w : World) (ctx1 ctx2 : Context),
        (∀ r, r ∈ ((GCFunc.run GarbageCollect gc ctx1 w).2.2 db).objects ↔ Reach (w db) r) ∧
        (∀ r, r ∈ (w db).objects → Reach (w db) r →
          r ∈ ((GCFunc.run GarbageCollect gc ctx1 w).2.2 db).objects) ∧
        (∀ r, r ∈ (w db).objects → ¬ Reach (w db) r →
          r ∉ ((GCFunc.run GarbageCollect gc ctx1 w).2.2 db).objects ∧
          r ∉ ((GCFunc.run GarbageCollect gc ctx2
                (GCFunc.run GarbageCollect gc ctx1 w).2.2).2.2 db).objects) ∧
        (∀ r, r ∈ ((GCFunc.run GarbageCollect gc ctx2
                (GCFunc.run GarbageCollect gc ctx1 w).2.2).2.2 db).objects ↔
          Reach (w db) r) ∧
        ((GCFunc.run GarbageCollect gc ctx1 w).2.2 db).roots = (w db).roots ∧
        ((GCFunc.run GarbageCollect gc ctx1 w).2.2 db).leases = (w db).leases ∧
        (∀ db1, db1 ≠ db → (GCFunc.run GarbageCollect gc ctx1 w).2.2 db1 = w db1) := by
  obtain ⟨f, md, exe, s, c0, db, id, -, -, -, -, -, -, h6, -, -, heq⟩ :=
    NewWorkerOpt_ok env root labels snapshotterName h
  refine ⟨GCFunc.closure (MetaDB.newDB db (ContentStore.localStore c0) [(snapshotterName, s)]),
    db, _, h6, rfl, by rw [heq]; rfl, by rw [heq], rfl, ?_⟩
  intro w ctx1 ctx2
  have hdb : (GCFunc.closure (MetaDB.newDB db (ContentStore.localStore c0)
      [(snapshotterName, s)])).mdb.db = db := rfl
  generalize GCFunc.closure (MetaDB.newDB db (ContentStore.localStore c0)
    [(snapshotterName, s)]) = gc at hdb
  obtain ⟨-, h1, h1o⟩ := run_GarbageCollect gc ctx1 w
  obtain ⟨-, h2, -⟩ := run_GarbageCollect gc ctx2 (GCFunc.run GarbageCollect gc ctx1 w).2.2
  rw [hdb] at h1 h1o h2
  rw [h2, h1]
  have e1 : ∀ r, r ∈ (w db).sweep.objects ↔ Reach (w db) r :=
    mem_objects_sweep_iff_reach (w db)
  have e2 : ∀ r, r ∈ (w db).sweep.sweep.objects ↔ Reach (w db) r := by
    intro r
    rw [mem_objects_sweep_iff_reach, reach_sweep]
  refine ⟨e1, ?_, ?_, e2, rfl, rfl, h1o⟩
  · intro r _ hr
    exact (e1 r).mpr hr
  · intro r _ hr
    exact ⟨fun hm => hr ((e1 r).mp hm), fun hm => hr ((e2 r).mp hm)⟩

/-- Witness of C6: the worker built with `okEnv` collects the store of database
6, which holds the pinned chain `S2 → S1 → S0`, the pinned blob `sha256:aa`, the
unpinned snapshot `T` and the unpinned blob `sha256:bb`; one pass leaves the
chain and the pinned blob. -/
theorem gc_pass_closure_witness :
    ∃ gc,
      (NewWorkerOpt okEnv "/var/lib/img" none "naive").opt.ContentStore =
        some (ContentStore.gcAware (ContentStore.ofDB gc.mdb) "buildkit" gc) ∧
      ((GCFunc.run GarbageCollect gc ⟨1⟩ sampleWorld).2.2 ⟨6⟩).objects =
        [(Kind.snapshot, "S0"), (Kind.snapshot, "S1"), (Kind.snapshot, "S2"),
         (Kind.blob, "sha256:aa")] ∧
      ∀ r, r ∈ ((GCFunc.run GarbageCollect gc ⟨1⟩ sampleWorld).2.2 ⟨6⟩).objects ↔
        Reach (sampleWorld ⟨6⟩) r := by
  obtain ⟨gc, db, sn, h1, h2, h3, -, -, h6⟩ :=
    gc_pass_closure okEnv "/var/lib/img" none "naive" rfl
  cases h1
  refine ⟨gc, h3, ?_, (h6 sampleWorld ⟨1⟩ ⟨2⟩).1⟩
  rw [← h2, (run_GarbageCollect gc ⟨1⟩ sampleWorld).2.1, h2]
  decide

end Runc
